import Mathlib

/-!
Verification of the footy-predictor frontend (src/frontend/src/services/api.js
and src/frontend/src/App.js) against its specification.

The JavaScript source is shallowly embedded: each exported API-client function
becomes a Lean value describing the HTTP request it issues; the React
component's state becomes an explicit `AppState` record; the async handlers
become state-transition functions parameterised by the request's result
(`Except Unit _`); JSX rendering becomes pure functions to view values.
JavaScript nullable fields become `Option`; reading a field off a possibly
null object is modelled as a function into `Option` (no value = TypeError).
-/

/-- HTTP method of a request issued through the axios instance. -/
inductive HttpMethod where
  | GET
  | POST
deriving DecidableEq, Repr

/-- A request produced by one of the API-client functions in api.js:
method, path relative to the base URL, and the JSON body as a list of
(field, value) pairs (`none` = no body, as for axios `get`). -/
structure ApiRequest where
  method : HttpMethod
  path : String
  body : Option (List (String × Nat))
deriving DecidableEq, Repr

/-- api.js line 20: `export const register = (userData) =>
api.post('/auth/register', userData);` (caller-supplied body passed through). -/
def register (userData : List (String × Nat)) : ApiRequest :=
  { method := HttpMethod.POST, path := "/auth/register", body := some userData }

/-- api.js line 21: `export const login = (userData) =>
api.post('/auth/login', userData);` -/
def login (userData : List (String × Nat)) : ApiRequest :=
  { method := HttpMethod.POST, path := "/auth/login", body := some userData }

/-- api.js line 22: `export const getMe = () => api.get('/auth/me');` -/
def getMe : ApiRequest :=
  { method := HttpMethod.GET, path := "/auth/me", body := none }

/-- api.js line 23: `export const getTeams = () => api.get('/teams');` -/
def getTeams : ApiRequest :=
  { method := HttpMethod.GET, path := "/teams", body := none }

/-- api.js line 24: `export const getTeamStats = (teamId) => ...`, a GET to
the template path `/teams/` + teamId + `/stats`. -/
def getTeamStats (teamId : Nat) : ApiRequest :=
  { method := HttpMethod.GET,
    path := "/teams/" ++ toString teamId ++ "/stats", body := none }

/-- api.js line 25: `export const getStandings = () => api.get('/standings');` -/
def getStandings : ApiRequest :=
  { method := HttpMethod.GET, path := "/standings", body := none }

/-- api.js line 26: `export const getFixtures = (limit = 10) => ...`, a GET
to the template path `/fixtures?limit=` + limit (default argument 10). -/
def getFixtures (limit : Nat) : ApiRequest :=
  { method := HttpMethod.GET,
    path := "/fixtures?limit=" ++ toString limit, body := none }

/-- api.js lines 27-28: `export const getPrediction = (homeTeamId, awayTeamId) =>
api.post('/predict', { home_team_id: homeTeamId, away_team_id: awayTeamId });` -/
def getPrediction (homeTeamId awayTeamId : Nat) : ApiRequest :=
  { method := HttpMethod.POST, path := "/predict",
    body := some [("home_team_id", homeTeamId), ("away_team_id", awayTeamId)] }

/-- api.js line 29: `export const savePrediction = (predictionData) =>
api.post('/predictions', predictionData);` -/
def savePrediction (predictionData : List (String × Nat)) : ApiRequest :=
  { method := HttpMethod.POST, path := "/predictions",
    body := some predictionData }

/-- api.js line 30: `export const getMyPredictions = () =>
api.get('/predictions');` -/
def getMyPredictions : ApiRequest :=
  { method := HttpMethod.GET, path := "/predictions", body := none }

/-- api.js line 31: `export const checkPrediction = (fixtureId) => ...`, a
GET to the template path `/predictions/check/` + fixtureId. -/
def checkPrediction (fixtureId : Nat) : ApiRequest :=
  { method := HttpMethod.GET,
    path := "/predictions/check/" ++ toString fixtureId, body := none }

/-- api.js line 32: `export const getLeaderboard = () =>
api.get('/leaderboard');` -/
def getLeaderboard : ApiRequest :=
  { method := HttpMethod.GET, path := "/leaderboard", body := none }

/-- The complete list of names exported by api.js (lines 20-32, plus the
default export of the axios instance itself). Notably, `getMatches` is NOT
among them, although App.js line 2 imports it from this module. -/
def apiExportNames : List String :=
  ["register", "login", "getMe", "getTeams", "getTeamStats", "getStandings",
   "getFixtures", "getPrediction", "savePrediction", "getMyPredictions",
   "checkPrediction", "getLeaderboard"]

/-- A team embedded in a match: `{id, name, crest}` (App.js lines 84-92). -/
structure Team where
  id : Nat
  name : String
  crest : String
deriving DecidableEq, Repr

/-- A match's score object `{home, away}`; each side is a nullable integer
(`none` = JSON null). -/
structure Score where
  home : Option Int
  away : Option Int
deriving DecidableEq, Repr

/-- A match as consumed by App.js: identifier, kickoff date string, status
string, the two embedded teams, and the score field, which the data model
allows to be null/absent (`none`). -/
structure MatchData where
  id : Nat
  date : String
  status : String
  home_team : Team
  away_team : Team
  score : Option Score
deriving DecidableEq, Repr

/-- The predicted score pair inside a prediction. -/
structure PredScore where
  home : Nat
  away : Nat
deriving DecidableEq, Repr

/-- The three outcome probabilities inside a prediction. -/
structure Probs where
  home_win : Nat
  draw : Nat
  away_win : Nat
deriving DecidableEq, Repr

/-- A prediction as consumed by the panel (App.js lines 110-132):
outcome string, confidence percentage, optional predicted score
(read via `?.`), optional probabilities (read via `?.`). -/
structure Prediction where
  predicted_outcome : String
  confidence : Nat
  predicted_score : Option PredScore
  probabilities : Option Probs
deriving DecidableEq, Repr

/-- The body of a successful `/matches` response as read by fetchMatches:
`response.data.matches` may be absent (`none`). -/
structure MatchListResponse where
  matchList : Option (List MatchData)
deriving DecidableEq, Repr

/-- The component state of App (App.js lines 6-10): `matches`, `loading`,
`error`, the `predictions` mapping keyed by match id, the single
`loadingPrediction` marker, and the console log written by `console.error`. -/
structure AppState where
  matchList : List MatchData
  loading : Bool
  error : Option String
  predictions : Nat → Option Prediction
  loadingPrediction : Option Nat
  consoleLog : List String

/-- `useState` initial values (App.js lines 6-10): empty list, loading true,
no error, empty predictions object, no pending marker. -/
def initialState : AppState :=
  { matchList := [], loading := true, error := none,
    predictions := fun _ => none, loadingPrediction := none, consoleLog := [] }

/-- Modelled from the spec: api.js exports no match-list function, so the
operation named by spec §4.1 "fetch match list → GET, no body → list of
Match" and §6 "list matches | GET | /matches" is missing from the source;
this is the request that function would issue. -/
def specMatchListRequest : ApiRequest :=
  { method := HttpMethod.GET, path := "/matches", body := none }

/-- The outcome of the awaited expression `getMatches()` at App.js line 18:
App.js line 2 imports `getMatches` from './services/api', but api.js exports
no such binding, so the imported value is undefined and the call throws a
TypeError inside the try block; no request is issued and fetchMatches always
lands in its catch branch. -/
def matchListFetchOutcome : Except Unit MatchListResponse := Except.error ()

/-- fetchMatches after its awaited request resolves (App.js lines 16-25):
on success set `matches` to `response.data.matches || []` and clear loading;
on failure set the fixed error message and clear loading. -/
def fetchMatchesResult (s : AppState) (result : Except Unit MatchListResponse) :
    AppState :=
  match result with
  | Except.ok resp =>
      { s with matchList := resp.matchList.getD [], loading := false }
  | Except.error _ =>
      { s with error := some "Failed to load matches", loading := false }

/-- fetchMatches as the program actually runs it (App.js lines 16-25, run by
useEffect on first render): the awaited call always throws, so the handler
body is applied to the error outcome. -/
def fetchMatches (s : AppState) : AppState :=
  fetchMatchesResult s matchListFetchOutcome

/-- The request issued by handleGetPrediction for a match (App.js line 30):
`getPrediction(match.home_team.id, match.away_team.id)`. -/
def predictionRequest (m : MatchData) : ApiRequest :=
  getPrediction m.home_team.id m.away_team.id

/-- The synchronous prefix of handleGetPrediction (App.js line 28):
`setLoadingPrediction(match.id)` before the request is awaited. -/
def startPrediction (s : AppState) (m : MatchData) : AppState :=
  { s with loadingPrediction := some m.id }

/-- The object-spread update `{...prev, [match.id]: prediction}`
(App.js lines 31-34): overwrite the entry at the match id, keep all others. -/
def storePrediction (prev : Nat → Option Prediction) (id : Nat)
    (p : Prediction) : Nat → Option Prediction :=
  fun k => if k = id then some p else prev k

/-- handleGetPrediction after its awaited request resolves
(App.js lines 29-38): on success merge the returned prediction keyed by
match id; on failure `console.error` a message and change nothing else;
in both branches `setLoadingPrediction(null)` runs afterwards. -/
def resolvePrediction (s : AppState) (m : MatchData)
    (result : Except Unit Prediction) : AppState :=
  match result with
  | Except.ok p =>
      { s with predictions := storePrediction s.predictions m.id p,
               loadingPrediction := none }
  | Except.error _ =>
      { s with consoleLog := s.consoleLog ++ ["Failed to get prediction:"],
               loadingPrediction := none }

/-- Text of an optional number under JSX interpolation: JavaScript renders
`undefined`/`null` interpolations as the empty string. -/
def optNatText (o : Option Nat) : String :=
  match o with
  | some n => toString n
  | none => ""

/-- The prediction panel (App.js lines 110-132): outcome label, confidence
line, predicted-score line, and the three probability spans. -/
structure PredictionPanel where
  outcome : String
  confidenceText : String
  predictedText : String
  probHomeText : String
  probDrawText : String
  probAwayText : String
deriving DecidableEq, Repr

/-- The outcome label (App.js lines 114-118): home team name on HOME_WIN,
away team name on AWAY_WIN, "Draw" otherwise. -/
def outcomeLabel (m : MatchData) (p : Prediction) : String :=
  if p.predicted_outcome = "HOME_WIN" then m.home_team.name
  else if p.predicted_outcome = "AWAY_WIN" then m.away_team.name
  else "Draw"

/-- Render the prediction panel for a match from its stored prediction
(App.js lines 110-132); `predicted_score?.home` etc. use optional chaining,
rendered as empty text when the object is absent. -/
def renderPanel (m : MatchData) (p : Prediction) : PredictionPanel :=
  { outcome := outcomeLabel m p,
    confidenceText := "Confidence: " ++ toString p.confidence ++ "%",
    predictedText :=
      "Predicted: " ++ optNatText (p.predicted_score.map PredScore.home)
        ++ " - " ++ optNatText (p.predicted_score.map PredScore.away),
    probHomeText := "H: " ++ optNatText (p.probabilities.map Probs.home_win) ++ "%",
    probDrawText := "D: " ++ optNatText (p.probabilities.map Probs.draw) ++ "%",
    probAwayText := "A: " ++ optNatText (p.probabilities.map Probs.away_win) ++ "%" }

/-- One rendered match card (App.js lines 78-133): date, status, team names,
the conditionally shown score pair, the predict button's disabled flag and
label, and the conditionally shown prediction panel. -/
structure MatchCard where
  dateText : String
  statusText : String
  homeName : String
  awayName : String
  scoreDisplay : Option (Option Int × Option Int)
  buttonDisabled : Bool
  buttonLabel : String
  panel : Option PredictionPanel
deriving DecidableEq, Repr

/-- Render one match card (App.js lines 78-133). The score guard at line 96
reads `match.score.home` with no null check on `score` itself, so rendering
has no value (`none`, a TypeError) when the score field is null/absent.
When `score` is present, the pair is shown iff `score.home !== null`. -/
def renderCard (s : AppState) (m : MatchData) : Option MatchCard :=
  match m.score with
  | none => none
  | some sc =>
      some
        { dateText := m.date,
          statusText := m.status,
          homeName := m.home_team.name,
          awayName := m.away_team.name,
          scoreDisplay :=
            if sc.home ≠ none then some (sc.home, sc.away) else none,
          buttonDisabled := s.loadingPrediction = some m.id,
          buttonLabel :=
            if s.loadingPrediction = some m.id then "Loading..."
            else "Get Prediction",
          panel := (s.predictions m.id).map (renderPanel m) }

/-- The three coarse views App can render (App.js lines 52-138). -/
inductive View where
  | loadingView
  | errorView (msg : String)
  | ready (cards : List MatchCard)
deriving DecidableEq, Repr

/-- The cards shown by a view: only the ready grid holds match cards. -/
def cardsOf (v : View) : List MatchCard :=
  match v with
  | View.ready cards => cards
  | _ => []

/-- `matches.map(...)` (App.js line 77) rendering every card in order; if any
card's render has no value (TypeError), the whole grid render has no value. -/
def renderCards (s : AppState) : List MatchData → Option (List MatchCard)
  | [] => some []
  | m :: rest =>
      match renderCard s m, renderCards s rest with
      | some c, some cs => some (c :: cs)
      | _, _ => none

/-- The top-level render (App.js lines 52-138): the loading screen while
`loading` is true, the error screen when `error` is set, else the grid
mapping renderCard over the match list. A `none` result models the render
throwing (a card's score access failing). -/
def render (s : AppState) : Option View :=
  if s.loading then some View.loadingView
  else
    match s.error with
    | some e => some (View.errorView e)
    | none => (renderCards s s.matchList).map View.ready

/-- The example match from the specification, §8: id 7, Real Madrid vs
Barcelona, null score pair. -/
def specMatch : MatchData :=
  { id := 7, date := "2026-10-11T20:00:00Z", status := "SCHEDULED",
    home_team := { id := 1, name := "Real Madrid", crest := "rm.png" },
    away_team := { id := 2, name := "Barcelona", crest := "fcb.png" },
    score := some { home := none, away := none } }

/-- The example prediction response from the specification, §8. -/
def specPrediction : Prediction :=
  { predicted_outcome := "HOME_WIN", confidence := 62,
    predicted_score := some { home := 2, away := 1 },
    probabilities := some { home_win := 62, draw := 20, away_win := 18 } }

/-- A prediction whose outcome is AWAY_WIN, for exercising the label cases. -/
def predAway : Prediction :=
  { predicted_outcome := "AWAY_WIN", confidence := 55,
    predicted_score := some { home := 0, away := 2 },
    probabilities := some { home_win := 25, draw := 20, away_win := 55 } }

/-- A prediction whose outcome is DRAW, for exercising the label cases. -/
def predDraw : Prediction :=
  { predicted_outcome := "DRAW", confidence := 40,
    predicted_score := some { home := 1, away := 1 },
    probabilities := some { home_win := 30, draw := 40, away_win := 30 } }

/-- A finished match with a non-null home score, for exercising the score
guard. -/
def finishedScoreMatch : MatchData :=
  { id := 3, date := "2026-10-04T18:00:00Z", status := "FINISHED",
    home_team := { id := 3, name := "Sevilla", crest := "sev.png" },
    away_team := { id := 4, name := "Valencia", crest := "val.png" },
    score := some { home := some 2, away := some 1 } }

/-- The card that finishedScoreMatch renders to in the initial state. -/
def finishedScoreCard : MatchCard :=
  { dateText := "2026-10-04T18:00:00Z", statusText := "FINISHED",
    homeName := "Sevilla", awayName := "Valencia",
    scoreDisplay := some (some 2, some 1),
    buttonDisabled := false, buttonLabel := "Get Prediction", panel := none }

/-- The card that specMatch renders to while a prediction request for
finishedScoreMatch (id 3) is pending. -/
def specMatchIdleCard : MatchCard :=
  { dateText := "2026-10-11T20:00:00Z", statusText := "SCHEDULED",
    homeName := "Real Madrid", awayName := "Barcelona",
    scoreDisplay := none,
    buttonDisabled := false, buttonLabel := "Get Prediction", panel := none }

/-- A ready state in which the spec's example prediction is already stored
for specMatch (id 7). -/
def statePred7 : AppState :=
  { matchList := [specMatch], loading := false, error := none,
    predictions := storePrediction (fun _ => none) specMatch.id specPrediction,
    loadingPrediction := none, consoleLog := [] }

/-- If the grid render succeeds, it yields exactly one card per match. -/
theorem renderCards_length (s : AppState) :
    ∀ (l : List MatchData) (cs : List MatchCard),
      renderCards s l = some cs → cs.length = l.length := by
  intro l
  induction l with
  | nil =>
    intro cs h
    unfold renderCards at h
    cases h
    rfl
  | cons m rest ih =>
    intro cs h
    unfold renderCards at h
    cases hc : renderCard s m with
    | none => rw [hc] at h; cases h
    | some c =>
      cases hr : renderCards s rest with
      | none => rw [hc, hr] at h; cases h
      | some csr =>
        rw [hc, hr] at h
        cases h
        simp [ih csr hr]

/-- C1 (code bug): api.js exposes no match-list operation — `getMatches` is
not among its exports and no exported function issues a request to
`/matches` — although spec §4.1/§6 specify one and App.js line 2 imports it;
the first-render fetch therefore awaits a call to an undefined binding,
always throws, and produces the error state instead of a match list. -/
theorem c1_no_match_list_endpoint :
    "getMatches" ∉ apiExportNames ∧
    specMatchListRequest.method = HttpMethod.GET ∧
    specMatchListRequest.path = "/matches" ∧
    specMatchListRequest.body = none ∧
    (∀ d, (register d).path ≠ "/matches") ∧
    (∀ d, (login d).path ≠ "/matches") ∧
    getMe.path ≠ "/matches" ∧
    getTeams.path ≠ "/matches" ∧
    (∀ n, (getTeamStats n).path ≠ "/matches") ∧
    getStandings.path ≠ "/matches" ∧
    (∀ n, (getFixtures n).path ≠ "/matches") ∧
    (∀ hId aId, (getPrediction hId aId).path ≠ "/matches") ∧
    (∀ d, (savePrediction d).path ≠ "/matches") ∧
    getMyPredictions.path ≠ "/matches" ∧
    (∀ n, (checkPrediction n).path ≠ "/matches") ∧
    getLeaderboard.path ≠ "/matches" ∧
    fetchMatches initialState =
      fetchMatchesResult initialState (Except.error ()) ∧
    render (fetchMatches initialState) =
      some (View.errorView "Failed to load matches") := by
  refine ⟨by decide, rfl, rfl, rfl, ?_, ?_, by decide, by decide,
    ?_, by decide, ?_, ?_, ?_, by decide, ?_, by decide, rfl, rfl⟩
  · intro d heq
    simp [register] at heq
  · intro d heq
    simp [login] at heq
  · intro n heq
    simp only [getTeamStats] at heq
    have hl := congrArg String.length heq
    simp [String.length_append] at hl
    have e1 : ("/teams/" : String).length = 7 := rfl
    have e2 : ("/stats" : String).length = 6 := rfl
    have e3 : ("/matches" : String).length = 8 := rfl
    omega
  · intro n heq
    simp only [getFixtures] at heq
    have hl := congrArg String.length heq
    simp [String.length_append] at hl
    have e1 : ("/fixtures?limit=" : String).length = 16 := rfl
    have e2 : ("/matches" : String).length = 8 := rfl
    omega
  · intro hId aId heq
    simp [getPrediction] at heq
  · intro d heq
    simp [savePrediction] at heq
  · intro n heq
    simp only [checkPrediction] at heq
    have hl := congrArg String.length heq
    simp [String.length_append] at hl
    have e1 : ("/predictions/check/" : String).length = 19 := rfl
    have e2 : ("/matches" : String).length = 8 := rfl
    omega

/-- C2 (code bug): no successful match-list response can occur in the
program — the awaited `getMatches()` at App.js line 18 is a call to an
undefined import, so every run of fetchMatches takes the catch branch; the
first render's fetch always yields the error view and never a ready grid of
match cards, so the claimed card-count behaviour of successful responses is
unreachable. -/
theorem c2_no_successful_response :
    matchListFetchOutcome = Except.error () ∧
    render (fetchMatches initialState) =
      some (View.errorView "Failed to load matches") ∧
    ∀ cards : List MatchCard,
      render (fetchMatches initialState) ≠ some (View.ready cards) := by
  refine ⟨rfl, rfl, ?_⟩
  intro cards h
  rw [show render (fetchMatches initialState) =
    some (View.errorView "Failed to load matches") from rfl] at h
  simp at h

/-- C3: for any match whose card renders, the score pair is displayed iff
the match's home score is non-null. -/
theorem c3_score_guard (s : AppState) (m : MatchData) (sc : Score)
    (card : MatchCard) (hsc : m.score = some sc)
    (hcard : renderCard s m = some card) :
    card.scoreDisplay.isSome ↔ sc.home.isSome := by
  unfold renderCard at hcard
  rw [hsc] at hcard
  cases hcard
  cases hh : sc.home <;> simp [hh]

/-- C3 witness: the finished match with home score 2 shows its score pair. -/
theorem c3_score_guard_witness :
    finishedScoreCard.scoreDisplay.isSome ↔
      (Score.mk (some 2) (some 1)).home.isSome :=
  c3_score_guard initialState finishedScoreMatch (Score.mk (some 2) (some 1))
    finishedScoreCard rfl (by decide)

/-- C4: the rendered outcome label is the home team's name on HOME_WIN, the
away team's name on AWAY_WIN, and "Draw" for any other value; and the spec's
example match and prediction render to the panel "Real Madrid" /
"Confidence: 62%" / "Predicted: 2 - 1" / "H: 62%" "D: 20%" "A: 18%". -/
theorem c4_outcome_labels :
    (∀ (m : MatchData) (p : Prediction), p.predicted_outcome = "HOME_WIN" →
      (renderPanel m p).outcome = m.home_team.name) ∧
    (∀ (m : MatchData) (p : Prediction), p.predicted_outcome = "AWAY_WIN" →
      (renderPanel m p).outcome = m.away_team.name) ∧
    (∀ (m : MatchData) (p : Prediction), p.predicted_outcome ≠ "HOME_WIN" →
      p.predicted_outcome ≠ "AWAY_WIN" → (renderPanel m p).outcome = "Draw") ∧
    renderPanel specMatch specPrediction =
      { outcome := "Real Madrid", confidenceText := "Confidence: 62%",
        predictedText := "Predicted: 2 - 1", probHomeText := "H: 62%",
        probDrawText := "D: 20%", probAwayText := "A: 18%" } := by
  refine ⟨?_, ?_, ?_, by decide⟩
  · intro m p h
    simp [renderPanel, outcomeLabel, h]
  · intro m p h
    simp [renderPanel, outcomeLabel, h]
  · intro m p h1 h2
    simp [renderPanel, outcomeLabel, h1, h2]

/-- C4 witness: the three label cases at concrete predictions. -/
theorem c4_outcome_labels_witness :
    (renderPanel specMatch specPrediction).outcome = specMatch.home_team.name ∧
    (renderPanel specMatch predAway).outcome = specMatch.away_team.name ∧
    (renderPanel specMatch predDraw).outcome = "Draw" :=
  ⟨c4_outcome_labels.1 specMatch specPrediction rfl,
   c4_outcome_labels.2.1 specMatch predAway rfl,
   c4_outcome_labels.2.2.1 specMatch predDraw (by decide) (by decide)⟩

/-- C5: a failed match-list fetch puts the fixed message
"Failed to load matches" into the error state, the view renders the error
screen, and the error screen holds no match cards. -/
theorem c5_fetch_failure (s : AppState) :
    (fetchMatchesResult s (Except.error ())).error =
      some "Failed to load matches" ∧
    render (fetchMatchesResult s (Except.error ())) =
      some (View.errorView "Failed to load matches") ∧
    cardsOf (View.errorView "Failed to load matches") = [] :=
  ⟨rfl, rfl, rfl⟩

/-- C6 counterexample: with the spec example prediction already stored for
match 7, a failed re-request leaves that entry in the mapping, so "after the
handler completes the predictions mapping contains no entry for X" is false. -/
theorem c6_counterexample :
    (resolvePrediction statePred7 specMatch
        (Except.error ())).predictions specMatch.id ≠ none := by
  decide

/-- C6 amended: if no prediction was stored for the match before the request,
a failed prediction request leaves the mapping with no entry for it; in all
cases it logs the error, clears the pending marker, and the match's card
shows the enabled button with the idle label again. -/
theorem c6_failed_prediction (s : AppState) (m : MatchData) (sc : Score)
    (hnone : s.predictions m.id = none) (hsc : m.score = some sc) :
    (resolvePrediction s m (Except.error ())).predictions m.id = none ∧
    (resolvePrediction s m (Except.error ())).consoleLog =
      s.consoleLog ++ ["Failed to get prediction:"] ∧
    (resolvePrediction s m (Except.error ())).loadingPrediction = none ∧
    ∃ card, renderCard (resolvePrediction s m (Except.error ())) m = some card ∧
      card.buttonLabel = "Get Prediction" ∧ card.buttonDisabled = false := by
  refine ⟨hnone, rfl, rfl, ?_⟩
  have hc : renderCard (resolvePrediction s m (Except.error ())) m =
      some { dateText := m.date, statusText := m.status,
             homeName := m.home_team.name, awayName := m.away_team.name,
             scoreDisplay := if sc.home ≠ none then some (sc.home, sc.away)
               else none,
             buttonDisabled := false, buttonLabel := "Get Prediction",
             panel := (s.predictions m.id).map (renderPanel m) } := by
    unfold renderCard
    rw [hsc]
    rfl
  exact ⟨_, hc, rfl, rfl⟩

/-- C6 witness: the amended claim at the spec example match from the empty
initial state. -/
theorem c6_failed_prediction_witness :
    (resolvePrediction initialState specMatch
        (Except.error ())).predictions specMatch.id = none ∧
    (resolvePrediction initialState specMatch (Except.error ())).consoleLog =
      initialState.consoleLog ++ ["Failed to get prediction:"] ∧
    (resolvePrediction initialState specMatch
        (Except.error ())).loadingPrediction = none ∧
    ∃ card, renderCard (resolvePrediction initialState specMatch
        (Except.error ())) specMatch = some card ∧
      card.buttonLabel = "Get Prediction" ∧ card.buttonDisabled = false :=
  c6_failed_prediction initialState specMatch (Score.mk none none) rfl rfl

/-- C7: resolving a prediction request (success or failure) leaves the
prediction entry of every other match identifier unchanged. -/
theorem c7_prediction_frame (s : AppState) (m : MatchData)
    (res : Except Unit Prediction) (k : Nat) (hk : k ≠ m.id) :
    (resolvePrediction s m res).predictions k = s.predictions k := by
  cases res with
  | ok p => simp [resolvePrediction, storePrediction, hk]
  | error e => rfl

/-- C7 witness: storing the example prediction for match 7 leaves match 3's
entry unchanged. -/
theorem c7_prediction_frame_witness :
    (resolvePrediction initialState specMatch
        (Except.ok specPrediction)).predictions 3 = initialState.predictions 3 :=
  c7_prediction_frame initialState specMatch (Except.ok specPrediction) 3
    (by decide)

/-- C8: requesting a prediction for match m sets the single pending marker to
m's id; in that state a rendered card's button is disabled iff it is m's card,
and its label is "Loading..." exactly for m's card; resolving the request
(either way) clears the marker, and a second request overwrites it. -/
theorem c8_pending_marker (s : AppState) (m m2 : MatchData) (sc2 : Score)
    (card : MatchCard) (hsc : m2.score = some sc2)
    (hcard : renderCard (startPrediction s m) m2 = some card) :
    (startPrediction s m).loadingPrediction = some m.id ∧
    (card.buttonDisabled = true ↔ m2.id = m.id) ∧
    card.buttonLabel =
      (if m2.id = m.id then "Loading..." else "Get Prediction") ∧
    (∀ res : Except Unit Prediction,
      (resolvePrediction (startPrediction s m) m res).loadingPrediction =
        none) ∧
    (startPrediction (startPrediction s m) m2).loadingPrediction =
      some m2.id := by
  unfold renderCard at hcard
  rw [hsc] at hcard
  cases hcard
  refine ⟨rfl, ?_, ?_, ?_, rfl⟩
  · by_cases h : m2.id = m.id <;>
      simp [startPrediction, h, Ne.symm, eq_comm]
  · by_cases h : m2.id = m.id <;>
      simp [startPrediction, h, Ne.symm, eq_comm]
  · intro res
    cases res <;> rfl

/-- C8 witness: while match 3's request is pending, match 7's card keeps the
enabled idle button, and resolution clears the marker. -/
theorem c8_pending_marker_witness :
    (startPrediction initialState finishedScoreMatch).loadingPrediction =
      some finishedScoreMatch.id ∧
    (specMatchIdleCard.buttonDisabled = true ↔
      specMatch.id = finishedScoreMatch.id) ∧
    specMatchIdleCard.buttonLabel =
      (if specMatch.id = finishedScoreMatch.id then "Loading..."
       else "Get Prediction") ∧
    (resolvePrediction (startPrediction initialState finishedScoreMatch)
        finishedScoreMatch (Except.error ())).loadingPrediction = none := by
  have h := c8_pending_marker initialState finishedScoreMatch specMatch
    (Score.mk none none) specMatchIdleCard rfl (by decide)
  exact ⟨h.1, h.2.1, h.2.2.1, h.2.2.2.1 (Except.error ())⟩

/-- C9: rendering a match card has a value exactly when the match's score
field is a present object; the guard at App.js line 96 reads
`match.score.home` with no null check on `score` itself, so a null or absent
score makes the card render undefined. -/
theorem c9_card_defined_iff_score_present (s : AppState) (m : MatchData) :
    (renderCard s m).isSome ↔ m.score.isSome := by
  cases hms : m.score <;> simp [renderCard, hms]

/-- C10: a failed prediction request leaves the predictions mapping exactly
as it was, and a previously stored prediction for that match keeps its panel
rendered on the match's card. -/
theorem c10_failure_atomicity (s : AppState) (m : MatchData) (sc : Score)
    (p : Prediction) (hp : s.predictions m.id = some p)
    (hsc : m.score = some sc) :
    (resolvePrediction s m (Except.error ())).predictions = s.predictions ∧
    (renderCard (resolvePrediction s m (Except.error ())) m).map
        MatchCard.panel = some (some (renderPanel m p)) := by
  refine ⟨rfl, ?_⟩
  unfold renderCard
  rw [hsc]
  show some ((s.predictions m.id).map (renderPanel m)) = _
  rw [hp]
  rfl

/-- C10 witness: with the example prediction stored for match 7, a failed
re-request keeps the mapping and the rendered panel. -/
theorem c10_failure_atomicity_witness :
    (resolvePrediction statePred7 specMatch (Except.error ())).predictions =
      statePred7.predictions ∧
    (renderCard (resolvePrediction statePred7 specMatch (Except.error ()))
        specMatch).map MatchCard.panel =
      some (some (renderPanel specMatch specPrediction)) :=
  c10_failure_atomicity statePred7 specMatch (Score.mk none none)
    specPrediction (by decide) rfl
